import Mathlib

/-
  Verification of the vacation-request lifecycle engine (src/vacation.py).

  Shallow embedding: calendar dates are structures of year/month/day integers,
  Python dicts are association lists with Python assignment/lookup semantics,
  timestamps are integer POSIX seconds (or milliseconds where sub-second
  resolution matters), and each Python function that the claims touch is
  translated into a pure Lean function over an explicit state record.
-/

namespace Vacation

/-- A calendar date, as produced by `datetime.date()` in the source: year,
month and day in the MSK time zone. -/
structure MyDate where
  year : Int
  month : Int
  day : Int
deriving DecidableEq

/-- Python `date` comparison `a <= b` (calendar order, i.e. lexicographic on
year, month, day). -/
def dateLe (a b : MyDate) : Prop :=
  a.year < b.year ∨ (a.year = b.year ∧ (a.month < b.month ∨ (a.month = b.month ∧ a.day ≤ b.day)))

/-- Python `date` comparison `a < b`. -/
def dateLt (a b : MyDate) : Prop :=
  a.year < b.year ∨ (a.year = b.year ∧ (a.month < b.month ∨ (a.month = b.month ∧ a.day < b.day)))

instance (a b : MyDate) : Decidable (dateLe a b) := by unfold dateLe; infer_instance

instance (a b : MyDate) : Decidable (dateLt a b) := by unfold dateLt; infer_instance

theorem dateLt_irrefl (a : MyDate) : ¬ dateLt a a := by
  unfold dateLt; omega

theorem dateLe_not_lt {a b : MyDate} (h : dateLe a b) : ¬ dateLt b a := by
  unfold dateLe at h; unfold dateLt; omega

/-- Day number of a Gregorian calendar date counted from 1970-01-01 (the value
of `(d - date(1970,1,1)).days`); standard civil-calendar formula.  Python date
subtraction `(a - b).days` is `daysFromCivil a - daysFromCivil b`. -/
def daysFromCivil (dt : MyDate) : Int :=
  let y : Int := if dt.month ≤ 2 then dt.year - 1 else dt.year
  let era : Int := (if 0 ≤ y then y else y - 399) / 400
  let yoe : Int := y - era * 400
  let mp : Int := if 2 < dt.month then dt.month - 3 else dt.month + 9
  let doy : Int := (153 * mp + 2) / 5 + dt.day - 1
  let doe : Int := yoe * 365 + yoe / 4 - yoe / 100 + doy
  era * 146097 + doe - 719468

/-- Inverse of `daysFromCivil`: the Gregorian date of a day number. -/
def civilFromDays (z0 : Int) : MyDate :=
  let z : Int := z0 + 719468
  let era : Int := (if 0 ≤ z then z else z - 146096) / 146097
  let doe : Int := z - era * 146097
  let yoe : Int := (doe - doe / 1460 + doe / 36524 - doe / 146096) / 365
  let y : Int := yoe + era * 400
  let doy : Int := doe - (365 * yoe + yoe / 4 - yoe / 100)
  let mp : Int := (5 * doy + 2) / 153
  let d : Int := doy - (153 * mp + 2) / 5 + 1
  let m : Int := if mp < 10 then mp + 3 else mp - 9
  { year := if m ≤ 2 then y + 1 else y, month := m, day := d }

/-- `d + timedelta(days = n)` on dates. -/
def addDays (dt : MyDate) (n : Int) : MyDate := civilFromDays (daysFromCivil dt + n)

example : daysFromCivil ⟨1970, 1, 1⟩ = 0 := by decide
example : daysFromCivil ⟨2024, 6, 8⟩ - daysFromCivil ⟨2024, 6, 1⟩ = 7 := by decide
example : addDays ⟨2024, 6, 28⟩ 7 = ⟨2024, 7, 5⟩ := by decide
example : addDays ⟨2023, 12, 30⟩ 3 = ⟨2024, 1, 2⟩ := by decide

/-- Python dict lookup `d.get(k)` on a string-keyed dict modelled as an
association list in insertion order. -/
def dget {α : Type} : List (String × α) → String → Option α
  | [], _ => Option.none
  | (k', v) :: rest, k => if k' = k then Option.some v else dget rest k

/-- Python dict assignment `d[k] = v`: replaces the existing binding for `k`
in place, otherwise appends a new one. -/
def dset {α : Type} : List (String × α) → String → α → List (String × α)
  | [], k, v => [(k, v)]
  | (k', v') :: rest, k, v =>
      if k' = k then (k, v) :: rest else (k', v') :: dset rest k v

/-- Python `del d[k]`. -/
def ddel {α : Type} : List (String × α) → String → List (String × α)
  | [], _ => []
  | (k', v) :: rest, k => if k' = k then ddel rest k else (k', v) :: ddel rest k

theorem dget_dset_self {α : Type} (d : List (String × α)) (k : String) (v : α) :
    dget (dset d k v) k = Option.some v := by
  induction d with
  | nil => simp [dset, dget]
  | cons p rest ih =>
      obtain ⟨k', v'⟩ := p
      by_cases h : k' = k
      · simp [dset, h, dget]
      · simp [dset, h, dget, ih]

theorem dget_dset_ne {α : Type} (d : List (String × α)) (k k' : String) (v : α)
    (h : k' ≠ k) : dget (dset d k v) k' = dget d k' := by
  induction d with
  | nil => simp [dset, dget, Ne.symm h]
  | cons p rest ih =>
      obtain ⟨k₀, v₀⟩ := p
      by_cases h0 : k₀ = k
      · subst h0
        simp [dset, dget, Ne.symm h]
      · simp only [dset, h0, if_false, dget]
        by_cases h1 : k₀ = k'
        · simp [h1]
        · simp [h1, ih]

theorem dget_ddel_self {α : Type} (d : List (String × α)) (k : String) :
    dget (ddel d k) k = Option.none := by
  induction d with
  | nil => simp [ddel, dget]
  | cons p rest ih =>
      obtain ⟨k', v'⟩ := p
      by_cases h : k' = k
      · simp [ddel, h, ih]
      · simp [ddel, h, dget, ih]

/-- `get_month_key` (src/vacation.py:140-144): `date.strftime("%Y-%m")`, the
calendar-month bucket key, zero-padding the month to two digits. -/
def get_month_key (d : MyDate) : String :=
  toString d.year ++ "-" ++ (if d.month < 10 then "0" ++ toString d.month else toString d.month)

example : get_month_key ⟨2024, 6, 1⟩ = "2024-06" := by decide
example : get_month_key ⟨2024, 11, 30⟩ = "2024-11" := by decide

/-- One per-(actor, month) entry of `vacation_stats`
(src/vacation.py:202-207): `{"count": .., "total_days": .., "last_vacation": ..}`. -/
structure StatsBucket where
  count : Int
  total_days : Int
  last_vacation : Option MyDate
deriving DecidableEq

/-- The default bucket inserted by `update_vacation_stats` when the month key
is missing (src/vacation.py:202-207), matching the `.get(.., 0)` defaults used
by readers. -/
def emptyBucket : StatsBucket := { count := 0, total_days := 0, last_vacation := Option.none }

/-- The whole `vacation_stats` store: user-id string to month-key to bucket. -/
abbrev VacStats : Type := List (String × List (String × StatsBucket))

/-- The bucket mutation at the core of `update_vacation_stats`
(src/vacation.py:209-219): `"taken"` credits the counters and stamps
`last_vacation`; `"cancelled"` decrements `count` only when it is positive and
subtracts from `total_days` only when `total_days >= duration_days`. -/
def bucket_apply (b : StatsBucket) (duration_days : Int) (now : MyDate) (action : String) :
    StatsBucket :=
  if action = "taken" then
    { count := b.count + 1, total_days := b.total_days + duration_days,
      last_vacation := Option.some now }
  else if action = "cancelled" then
    { b with count := if 0 < b.count then b.count - 1 else b.count,
             total_days := if duration_days ≤ b.total_days then b.total_days - duration_days
                           else b.total_days }
  else b

/-- `update_vacation_stats` (src/vacation.py:194-221): the Usage Ledger
mutation.  The month bucket is always `get_month_key` of the wall-clock time
`now` at which the call executes; the function receives no request dates. -/
def update_vacation_stats (stats : VacStats) (user_id : Int) (now : MyDate)
    (duration_days : Int) (action : String) : VacStats :=
  let user_key := toString user_id
  let month_key := get_month_key now
  let user_map := (dget stats user_key).getD []
  let b := (dget user_map month_key).getD emptyBucket
  dset stats user_key (dset user_map month_key (bucket_apply b duration_days now action))

/-- The reader-side chain `vacation_stats.get(user).get(month_key)` with the
source's defaults (src/vacation.py:184-186). -/
def statBucket (stats : VacStats) (user_id : Int) (month_key : String) : StatsBucket :=
  (dget ((dget stats (toString user_id)).getD []) month_key).getD emptyBucket

theorem statBucket_update (stats : VacStats) (uid : Int) (now : MyDate) (d : Int) (a : String) :
    statBucket (update_vacation_stats stats uid now d a) uid (get_month_key now)
      = bucket_apply (statBucket stats uid (get_month_key now)) d now a := by
  unfold statBucket update_vacation_stats
  simp [dget_dset_self]

theorem statBucket_update_other (stats : VacStats) (uid : Int) (now : MyDate) (d : Int)
    (a : String) (mk : String) (h : mk ≠ get_month_key now) :
    statBucket (update_vacation_stats stats uid now d a) uid mk = statBucket stats uid mk := by
  unfold statBucket update_vacation_stats
  simp [dget_dset_self, dget_dset_ne _ _ _ _ h]

/-- Per-guild configuration (src/vacation.py:94-106), restricted to the fields
the engine reads. -/
structure GuildConfig where
  vacation_role_id : Option Int
  allowed_roles : List Int
  banned_roles : List Int
  min_rank_roles : List Int
  max_vacations_per_month : Int
  auto_close_hours : Int
deriving DecidableEq

/-- Rejection message of eligibility rule 1 (src/vacation.py:173). -/
def bannedMsg : String := "**`!` Ваша должность не позволяет брать отпуск.**"

/-- Rejection message of eligibility rule 2 (src/vacation.py:178). -/
def rankMsg : String := "**`!` Недостаточно высокий ранг для отпуска.**"

/-- Rejection message of eligibility rule 3 (src/vacation.py:190). -/
def quotaMsg (max_per_month : Int) : String :=
  "**`!` Лимит отпусков на этот месяц исчерпан (" ++ toString max_per_month ++ ").**"

/-- `can_take_vacation` (src/vacation.py:166-192): the eligibility predicate.
Checks banned roles, then minimum rank, then the monthly quota, returning the
first failing rule's message. -/
def can_take_vacation (memberRoles : List Int) (config : GuildConfig) (stats : VacStats)
    (user_id : Int) (now : MyDate) : Bool × String :=
  if memberRoles.any (fun r => config.banned_roles.contains r) then
    (false, bannedMsg)
  else if config.min_rank_roles ≠ [] ∧
          ¬ (memberRoles.any (fun r => config.min_rank_roles.contains r)) then
    (false, rankMsg)
  else
    let vacations_taken := (statBucket stats user_id (get_month_key now)).count
    if config.max_vacations_per_month ≤ vacations_taken then
      (false, quotaMsg config.max_vacations_per_month)
    else
      (true, "")

/-- A vacation request record, mirroring the `request_data` dict created at
submission (src/vacation.py:800-823) together with the keys later code paths
add (`auto_closed`, `early_return_*`, `force_recalled*`), modelled as option
or boolean fields that are absent/false until set.  Timestamps are POSIX
seconds; presentation-only keys (message/thread ids, user_name) are omitted. -/
structure Request where
  request_id : String
  user_id : Int
  start_date : MyDate
  end_date : MyDate
  duration_days : Int
  reason : String
  contact : String
  status : String
  created_at : Int
  reviewed_by : Option Int
  reviewed_at : Option Int
  review_comment : Option String
  deny_reason : Option String
  auto_close_at : Int
  saved_roles : List Int
  reminder_sent : Bool
  auto_closed : Bool
  auto_closed_at : Option Int
  early_return_at : Option Int
  early_return_by : Option Int
  force_recalled : Bool
  force_recalled_by : Option Int
  force_recalled_at : Option Int
deriving DecidableEq

/-- The request id assigned at submission (src/vacation.py:798):
`f"{author.id}_{int(now.timestamp())}"`.  The wall clock is taken in
milliseconds here so that truncation to whole seconds is explicit. -/
def make_request_id (user_id : Int) (now_ts_millis : Int) : String :=
  toString user_id ++ "_" ++ toString (now_ts_millis / 1000)

/-- The request record built by `VacationReasonModal.callback`
(src/vacation.py:791-823): status `"pending"`, no review fields,
`end_date = start_date + timedelta(days=duration)`, and
`auto_close_at = created_at + auto_close_hours`. -/
def submit_request (user_id : Int) (now_ts_millis : Int) (start_date : MyDate)
    (duration_days : Int) (reason contact : String) (auto_close_hours : Int) : Request :=
  { request_id := make_request_id user_id now_ts_millis
    user_id := user_id
    start_date := start_date
    end_date := addDays start_date duration_days
    duration_days := duration_days
    reason := reason
    contact := contact
    status := "pending"
    created_at := now_ts_millis / 1000
    reviewed_by := Option.none
    reviewed_at := Option.none
    review_comment := Option.none
    deny_reason := Option.none
    auto_close_at := now_ts_millis / 1000 + auto_close_hours * 3600
    saved_roles := []
    reminder_sent := false
    auto_closed := false
    auto_closed_at := Option.none
    early_return_at := Option.none
    early_return_by := Option.none
    force_recalled := false
    force_recalled_by := Option.none
    force_recalled_at := Option.none }

/-- The storage step of submission (src/vacation.py:826):
`vacation_requests[request_id] = request_data` — a plain dict assignment,
which replaces any existing entry under the same id. -/
def submit_request_store (reqs : List (String × Request)) (req : Request) :
    List (String × Request) :=
  dset reqs req.request_id req

/-- The module-level mutable state the engine manipulates: `vacation_requests`
(all requests), `vacation_data` (the "active" set holding approved requests),
and `vacation_stats` (the Usage Ledger). -/
structure SysState where
  vacation_requests : List (String × Request)
  vacation_data : List (String × Request)
  vacation_stats : VacStats
deriving DecidableEq

/-- Outcome reported to the reviewer by `approve_vacation`/`deny_vacation`. -/
inductive ActionResult where
  | ok
  | notFound
  | alreadyReviewed
deriving DecidableEq

/-- `approve_vacation` (src/vacation.py:1052-1082): rejects a missing id,
rejects any non-pending request before mutating anything, otherwise sets the
review fields, credits the Usage Ledger for the wall-clock month, and copies
the request into the active set `vacation_data`. -/
def approve_vacation (st : SysState) (request_id : String) (reviewer : Int) (now : MyDate)
    (now_ts : Int) (comment : String) : SysState × ActionResult :=
  match dget st.vacation_requests request_id with
  | Option.none => (st, ActionResult.notFound)
  | Option.some data =>
      if data.status ≠ "pending" then (st, ActionResult.alreadyReviewed)
      else
        let d := { data with status := "approved", reviewed_by := Option.some reviewer,
                             reviewed_at := Option.some now_ts,
                             review_comment := Option.some comment }
        ({ vacation_requests := dset st.vacation_requests request_id d,
           vacation_data := dset st.vacation_data request_id d,
           vacation_stats :=
             update_vacation_stats st.vacation_stats data.user_id now data.duration_days "taken" },
         ActionResult.ok)

/-- `deny_vacation` (src/vacation.py:1179-1202): rejects a missing id, rejects
any non-pending request before mutating anything, otherwise sets the review
fields and the denial reason; the Usage Ledger is not touched. -/
def deny_vacation (st : SysState) (request_id : String) (reviewer : Int) (now_ts : Int)
    (reason : String) : SysState × ActionResult :=
  match dget st.vacation_requests request_id with
  | Option.none => (st, ActionResult.notFound)
  | Option.some data =>
      if data.status ≠ "pending" then (st, ActionResult.alreadyReviewed)
      else
        let d := { data with status := "denied", reviewed_by := Option.some reviewer,
                             reviewed_at := Option.some now_ts,
                             deny_reason := Option.some reason }
        ({ st with vacation_requests := dset st.vacation_requests request_id d },
         ActionResult.ok)

/-- `early_return_vacation` (src/vacation.py:1289-1336): marks the request
`"early_return"`, and adjusts the Usage Ledger by
`duration_days - days_used` — but only when
`days_used = (now.date() - start_date.date()).days` is strictly positive
(src/vacation.py:1326-1328); the request leaves `vacation_data` and its
updated record is written back to `vacation_requests`. -/
def early_return_vacation (st : SysState) (request_id : String) (data : Request)
    (author : Int) (now : MyDate) (now_ts : Int) : SysState :=
  let d := { data with status := "early_return", early_return_at := Option.some now_ts,
                       early_return_by := Option.some author }
  let days_used := daysFromCivil now - daysFromCivil data.start_date
  let stats' :=
    if 0 < days_used then
      update_vacation_stats st.vacation_stats data.user_id now
        (data.duration_days - days_used) "cancelled"
    else st.vacation_stats
  { vacation_requests := dset st.vacation_requests request_id d,
    vacation_data := ddel st.vacation_data request_id,
    vacation_stats := stats' }

/-- The per-request list built by `VacationMainMenu.return_from_vacation`
(src/vacation.py:542-546): every request of this actor whose status is
`"approved"`, with no condition on its dates. -/
def user_vacations (vdata : List (String × Request)) (uid : Int) :
    List (String × Request) :=
  vdata.filter (fun p => p.2.user_id == uid && p.2.status == "approved")

/-- What one lifecycle-pass iteration of `VacationTasks.check_vacations`
decides for one request (src/vacation.py:1485-1546): skip non-approved
entries, activate when today equals `start_date`, otherwise expire when
`end_date` is today or past. -/
inductive SchedDecision where
  | activate
  | expire
  | skip
deriving DecidableEq

/-- The guard chain of `check_vacations` (src/vacation.py:1486, 1494, 1546). -/
def check_vacations_decision (status : String) (start_date end_date now : MyDate) :
    SchedDecision :=
  if status ≠ "approved" then SchedDecision.skip
  else if start_date = now then SchedDecision.activate
  else if dateLe end_date now then SchedDecision.expire
  else SchedDecision.skip

/-- The expiry branch of `check_vacations` for one request
(src/vacation.py:1546-1613).  The role revoke is attempted inside
`try/except`, and a failure is logged and swallowed (src/vacation.py:1550-1556)
— `revoke_ok` therefore has no influence on the state: the status is set to
`"completed"`, the entry leaves `vacation_data`, and the record is written to
`vacation_requests` unconditionally (src/vacation.py:1592-1600). -/
def check_vacations_expire (st : SysState) (request_id : String) (now : MyDate)
    ( revoke_ok : Bool) : SysState :=
  match dget st.vacation_data request_id with
  | Option.none => st
  | Option.some data =>
      if check_vacations_decision data.status data.start_date data.end_date now
           = SchedDecision.expire then
        let d := { data with status := "completed" }
        { st with vacation_data := ddel st.vacation_data request_id,
                  vacation_requests := dset st.vacation_requests request_id d }
      else st

/-- The operations that can touch a single stored request after submission,
with the data each source path reads from the outside world (reviewer ids,
wall-clock instants, configured hours, the actor's role snapshot). -/
inductive VacOp where
  | approve (reviewer : Int) (ts : Int) (comment : String)
  | deny (reviewer : Int) (ts : Int) (reason : String)
  | autoClose (now_ts : Int) (auto_close_hours : Int)
  | activate (now : MyDate) (roles : List Int)
  | reminderFire (now : MyDate)
  | expire (now : MyDate)
  | earlyReturn (actor : Int) (ts : Int)
  | forceRecall (actor : Int) (ts : Int) (now : MyDate)

/-- The effect of each operation on one request record, with the guard each
source path checks before mutating:
`approve`/`deny` require status `"pending"` (src/vacation.py:1064, 1191);
`autoClose` requires status `"pending"` and
`now >= created_at + auto_close_hours` and sets status `"cancelled"` without
touching the review fields (src/vacation.py:1676-1688);
`activate` captures the role snapshot when today is the start date
(src/vacation.py:1494-1506); `reminderFire` sets the flag one day before the
end (src/vacation.py:1625-1652); `expire` sets `"completed"`
(src/vacation.py:1546, 1593); `earlyReturn` is applied to requests selected
with status `"approved"` (src/vacation.py:543-545, 1320-1323); `forceRecall`
requires status `"approved"` and a start date still in the future and sets
status `"denied"` (src/vacation.py:2121-2137). -/
def applyOp (r : Request) (op : VacOp) : Request :=
  match op with
  | VacOp.approve reviewer ts comment =>
      if r.status = "pending" then
        { r with status := "approved", reviewed_by := Option.some reviewer,
                 reviewed_at := Option.some ts, review_comment := Option.some comment }
      else r
  | VacOp.deny reviewer ts reason =>
      if r.status = "pending" then
        { r with status := "denied", reviewed_by := Option.some reviewer,
                 reviewed_at := Option.some ts, deny_reason := Option.some reason }
      else r
  | VacOp.autoClose now_ts hours =>
      if r.status = "pending" ∧ r.created_at + hours * 3600 ≤ now_ts then
        { r with status := "cancelled", auto_closed := true,
                 auto_closed_at := Option.some now_ts }
      else r
  | VacOp.activate now roles =>
      if r.status = "approved" ∧ r.start_date = now then
        { r with saved_roles := roles }
      else r
  | VacOp.reminderFire now =>
      if r.status = "approved" ∧ daysFromCivil r.end_date - daysFromCivil now = 1 ∧
           r.reminder_sent = false then
        { r with reminder_sent := true }
      else r
  | VacOp.expire now =>
      if r.status = "approved" ∧ r.start_date ≠ now ∧ dateLe r.end_date now then
        { r with status := "completed" }
      else r
  | VacOp.earlyReturn actor ts =>
      if r.status = "approved" then
        { r with status := "early_return", early_return_at := Option.some ts,
                 early_return_by := Option.some actor }
      else r
  | VacOp.forceRecall actor ts now =>
      if r.status = "approved" ∧ ¬ dateLe r.start_date now then
        { r with status := "denied", force_recalled := true,
                 force_recalled_by := Option.some actor,
                 force_recalled_at := Option.some ts }
      else r

/-- The relationship between the review fields and the status that actually
holds in the code: the review is absent exactly in the two statuses reached
without a reviewer decision, `"pending"` and the auto-close status
`"cancelled"`. -/
def review_inv (r : Request) : Prop :=
  r.reviewed_by = Option.none ↔ (r.status = "pending" ∨ r.status = "cancelled")

theorem review_inv_applyOp (r : Request) (op : VacOp) (h : review_inv r) :
    review_inv (applyOp r op) := by
  unfold review_inv at h
  cases op with
  | approve reviewer ts comment =>
      by_cases hp : r.status = "pending"
      · unfold review_inv; simp [applyOp, hp]
      · unfold review_inv; simpa [applyOp, hp] using h
  | deny reviewer ts reason =>
      by_cases hp : r.status = "pending"
      · unfold review_inv; simp [applyOp, hp]
      · unfold review_inv; simpa [applyOp, hp] using h
  | autoClose now_ts hours =>
      by_cases hp : r.status = "pending" ∧ r.created_at + hours * 3600 ≤ now_ts
      · have h1 : r.reviewed_by = Option.none := by
          rw [hp.1] at h; simpa using h
        unfold review_inv; simp [applyOp, hp, h1]
      · unfold review_inv; simpa [applyOp, hp] using h
  | activate now roles =>
      by_cases hp : r.status = "approved" ∧ r.start_date = now
      · unfold review_inv; simpa [applyOp, hp] using h
      · unfold review_inv; simpa [applyOp, hp] using h
  | reminderFire now =>
      by_cases hp : r.status = "approved" ∧ daysFromCivil r.end_date - daysFromCivil now = 1 ∧
          r.reminder_sent = false
      · unfold review_inv; simpa [applyOp, hp] using h
      · unfold review_inv; simpa [applyOp, hp] using h
  | expire now =>
      by_cases hp : r.status = "approved" ∧ r.start_date ≠ now ∧ dateLe r.end_date now
      · have h1 : ¬ r.reviewed_by = Option.none := by
          rw [hp.1] at h; simpa using h
        unfold review_inv; simp [applyOp, hp, h1]
      · unfold review_inv; simpa [applyOp, hp] using h
  | earlyReturn actor ts =>
      by_cases hp : r.status = "approved"
      · have h1 : ¬ r.reviewed_by = Option.none := by
          rw [hp] at h; simpa using h
        unfold review_inv; simp [applyOp, hp, h1]
      · unfold review_inv; simpa [applyOp, hp] using h
  | forceRecall actor ts now =>
      by_cases hp : r.status = "approved" ∧ ¬ dateLe r.start_date now
      · have h1 : ¬ r.reviewed_by = Option.none := by
          rw [hp.1] at h; simpa using h
        unfold review_inv; simp [applyOp, hp, h1]
      · unfold review_inv; simpa [applyOp, hp] using h

theorem review_inv_foldl (ops : List VacOp) (r : Request) (h : review_inv r) :
    review_inv (ops.foldl applyOp r) := by
  induction ops generalizing r with
  | nil => simpa using h
  | cons op rest ih => exact ih (applyOp r op) (review_inv_applyOp r op h)

theorem review_inv_submit (user_id now_ts_millis : Int) (start : MyDate) (dur : Int)
    (reason contact : String) (hours : Int) :
    review_inv (submit_request user_id now_ts_millis start dur reason contact hours) := by
  unfold review_inv submit_request
  simp

/-- A concrete approved request (actor 42, 2024-06-01 + 7 days) used to
instantiate hypotheses on concrete states. -/
def exReq : Request :=
  { submit_request 42 1000200000 ⟨2024, 6, 1⟩ 7 "отдых" "tg" 24 with
      status := "approved", reviewed_by := Option.some 7,
      reviewed_at := Option.some 1000300, review_comment := Option.some "ok" }

/-- A concrete state holding `exReq` in both stores and one June-2024 ledger
bucket for actor 42 with `count = 1`, `total_days = 7`. -/
def exSt : SysState :=
  { vacation_requests := [(exReq.request_id, exReq)],
    vacation_data := [(exReq.request_id, exReq)],
    vacation_stats := [("42", [("2024-06", ⟨1, 7, Option.none⟩)])] }

/-- Claim C3: applying Approve or Deny to a request whose status is not
`"pending"` is a no-op reported as an error: the whole state — request fields,
active set, and Usage Ledger — is returned unchanged, so no second credit can
reach an already-approved request. -/
theorem c3_decided_request_is_noop (st : SysState) (rid : String) (data : Request)
    (reviewer : Int) (now : MyDate) (now_ts : Int) (comment reason : String)
    (h : dget st.vacation_requests rid = Option.some data) (hs : data.status ≠ "pending") :
    approve_vacation st rid reviewer now now_ts comment = (st, ActionResult.alreadyReviewed)
    ∧ deny_vacation st rid reviewer now_ts reason = (st, ActionResult.alreadyReviewed) := by
  unfold approve_vacation deny_vacation
  rw [h]
  simp [hs]

/-- Witness for C3: re-approving and re-denying the already-approved concrete
request leaves the concrete state untouched. -/
theorem c3_decided_request_is_noop_witness :
    approve_vacation exSt "42_1000200" 8 ⟨2024, 6, 20⟩ 1000400 "again"
      = (exSt, ActionResult.alreadyReviewed)
    ∧ deny_vacation exSt "42_1000200" 8 1000400 "no"
      = (exSt, ActionResult.alreadyReviewed) :=
  c3_decided_request_is_noop exSt "42_1000200" exReq 8 ⟨2024, 6, 20⟩ 1000400 "again" "no"
    (by decide) (by decide)

/-- Claim C4: the lifecycle pass never time-travels — its decision for a
request is Activate only when today equals `start_date` (hence never before
it), and Expire only when `end_date` is today or past (hence never before
`end_date`). -/
theorem c4_no_time_travel (status : String) (start_date end_date now : MyDate) :
    (check_vacations_decision status start_date end_date now = SchedDecision.activate →
        ¬ dateLt now start_date)
    ∧ (check_vacations_decision status start_date end_date now = SchedDecision.expire →
        ¬ dateLt now end_date) := by
  unfold check_vacations_decision
  split_ifs with hs h1 h2
  · exact ⟨fun hc => by simp at hc, fun hc => by simp at hc⟩
  · refine ⟨fun _ => ?_, fun hc => by simp at hc⟩
    rw [h1]
    exact dateLt_irrefl now
  · exact ⟨fun hc => by simp at hc, fun _ => dateLe_not_lt h2⟩
  · exact ⟨fun hc => by simp at hc, fun hc => by simp at hc⟩

/-- Witness for C4: on a request starting 2024-05-10 the pass decides Activate
on 2024-05-10 itself, and indeed that day is not before the start date. -/
theorem c4_no_time_travel_witness : ¬ dateLt ⟨2024, 5, 10⟩ ⟨2024, 5, 10⟩ :=
  (c4_no_time_travel "approved" ⟨2024, 5, 10⟩ ⟨2024, 5, 17⟩ ⟨2024, 5, 10⟩).1 (by decide)

/-- Claim C5: `can_take_vacation` evaluates its three rules in the fixed
order banned-roles, then minimum-rank, then monthly quota, and returns the
reason of the first failing rule: a banned actor gets the banned-role message
whatever the ledger says (in particular when also over quota); a non-banned
actor failing the rank rule gets the rank message regardless of the quota (in
particular when also over quota); a non-banned, rank-passing actor over quota
gets the quota message; and an actor failing no rule is accepted. -/
theorem c5_eligibility_order (memberRoles : List Int) (config : GuildConfig)
    (stats : VacStats) (uid : Int) (now : MyDate) :
    ((memberRoles.any fun r => config.banned_roles.contains r) = true →
        can_take_vacation memberRoles config stats uid now = (false, bannedMsg))
    ∧ ((memberRoles.any fun r => config.banned_roles.contains r) = false →
       config.min_rank_roles ≠ [] →
       (memberRoles.any fun r => config.min_rank_roles.contains r) = false →
        can_take_vacation memberRoles config stats uid now = (false, rankMsg))
    ∧ ((memberRoles.any fun r => config.banned_roles.contains r) = false →
       (config.min_rank_roles = [] ∨
          (memberRoles.any fun r => config.min_rank_roles.contains r) = true) →
       config.max_vacations_per_month ≤ (statBucket stats uid (get_month_key now)).count →
        can_take_vacation memberRoles config stats uid now
          = (false, quotaMsg config.max_vacations_per_month))
    ∧ ((memberRoles.any fun r => config.banned_roles.contains r) = false →
       (config.min_rank_roles = [] ∨
          (memberRoles.any fun r => config.min_rank_roles.contains r) = true) →
       (statBucket stats uid (get_month_key now)).count < config.max_vacations_per_month →
        can_take_vacation memberRoles config stats uid now = (true, "")) := by
  refine ⟨?_, ?_, ?_, ?_⟩
  · intro hb
    unfold can_take_vacation
    rw [if_pos hb]
  · intro hb hne hf
    unfold can_take_vacation
    have h1 : ¬ ((memberRoles.any fun r => config.banned_roles.contains r) = true) := by
      rw [hb]; simp
    have h2 : config.min_rank_roles ≠ [] ∧
        ¬ ((memberRoles.any fun r => config.min_rank_roles.contains r) = true) := by
      exact ⟨hne, by rw [hf]; simp⟩
    rw [if_neg h1, if_pos h2]
  · intro hb hr hq
    unfold can_take_vacation
    have h1 : ¬ ((memberRoles.any fun r => config.banned_roles.contains r) = true) := by
      rw [hb]; simp
    have h2 : ¬ (config.min_rank_roles ≠ [] ∧
        ¬ ((memberRoles.any fun r => config.min_rank_roles.contains r) = true)) := by
      rcases hr with h | h
      · intro hc; exact hc.1 h
      · intro hc; exact hc.2 h
    simp only [if_neg h1, if_neg h2, if_pos hq]
  · intro hb hr hq
    unfold can_take_vacation
    have h1 : ¬ ((memberRoles.any fun r => config.banned_roles.contains r) = true) := by
      rw [hb]; simp
    have h2 : ¬ (config.min_rank_roles ≠ [] ∧
        ¬ ((memberRoles.any fun r => config.min_rank_roles.contains r) = true)) := by
      rcases hr with h | h
      · intro hc; exact hc.1 h
      · intro hc; exact hc.2 h
    have h3 : ¬ (config.max_vacations_per_month ≤
        (statBucket stats uid (get_month_key now)).count) := by omega
    simp only [if_neg h1, if_neg h2, if_neg h3]

/-- A configuration with one banned role (100), one minimum-rank role (200)
and a quota of 1 per month. -/
def c5Cfg : GuildConfig :=
  { vacation_role_id := Option.none, allowed_roles := [], banned_roles := [100],
    min_rank_roles := [200], max_vacations_per_month := 1, auto_close_hours := 24 }

/-- A ledger in which actor 42 is far over the June-2024 quota. -/
def c5Stats : VacStats := [("42", [("2024-06", ⟨5, 35, Option.none⟩)])]

/-- Witness for C5, one instance per rule: an actor holding both the banned
role and the rank role while over quota gets the banned-role reason; a
non-banned actor without the rank role, also over quota, gets the rank
reason; an actor with the rank role and an exhausted quota gets the quota
reason; and an actor with only the rank role and an empty ledger is
accepted. -/
theorem c5_eligibility_order_witness :
    can_take_vacation [100, 200] c5Cfg c5Stats 42 ⟨2024, 6, 15⟩ = (false, bannedMsg)
    ∧ can_take_vacation [] c5Cfg c5Stats 42 ⟨2024, 6, 15⟩ = (false, rankMsg)
    ∧ can_take_vacation [200] c5Cfg c5Stats 42 ⟨2024, 6, 15⟩ = (false, quotaMsg 1)
    ∧ can_take_vacation [200] c5Cfg [] 42 ⟨2024, 6, 15⟩ = (true, "") :=
  ⟨(c5_eligibility_order [100, 200] c5Cfg c5Stats 42 ⟨2024, 6, 15⟩).1 (by decide),
   (c5_eligibility_order [] c5Cfg c5Stats 42 ⟨2024, 6, 15⟩).2.1 (by decide)
     (by decide) (by decide),
   (c5_eligibility_order [200] c5Cfg c5Stats 42 ⟨2024, 6, 15⟩).2.2.1 (by decide)
     (Or.inr (by decide)) (by decide),
   (c5_eligibility_order [200] c5Cfg [] 42 ⟨2024, 6, 15⟩).2.2.2 (by decide)
     (Or.inr (by decide)) (by decide)⟩

/-- Claim C10: every Usage Ledger mutation lands in the calendar-month bucket
of the wall-clock instant `now` at which the transition executes: when the
request's start month differs from the current month, the start-month bucket
is untouched by both the approval credit and the cancellation debit, and the
credit goes to the current month's bucket. -/
theorem c10_bucket_is_wall_clock_month (stats : VacStats) (uid : Int) (now start : MyDate)
    (dur : Int) (h : get_month_key start ≠ get_month_key now) :
    statBucket (update_vacation_stats stats uid now dur "taken") uid (get_month_key start)
      = statBucket stats uid (get_month_key start)
    ∧ statBucket (update_vacation_stats stats uid now dur "cancelled") uid (get_month_key start)
      = statBucket stats uid (get_month_key start)
    ∧ (statBucket (update_vacation_stats stats uid now dur "taken") uid (get_month_key now)).count
      = (statBucket stats uid (get_month_key now)).count + 1
    ∧ (statBucket (update_vacation_stats stats uid now dur "taken") uid
        (get_month_key now)).total_days
      = (statBucket stats uid (get_month_key now)).total_days + dur := by
  refine ⟨statBucket_update_other stats uid now dur "taken" _ h,
          statBucket_update_other stats uid now dur "cancelled" _ h, ?_, ?_⟩
  · rw [statBucket_update]
    unfold bucket_apply
    simp
  · rw [statBucket_update]
    unfold bucket_apply
    simp

/-- Witness for C10: an April vacation approved on 2024-05-02 leaves the April
bucket of the empty ledger untouched. -/
theorem c10_bucket_is_wall_clock_month_witness :
    statBucket (update_vacation_stats [] 7 ⟨2024, 5, 2⟩ 7 "taken") 7 (get_month_key ⟨2024, 4, 15⟩)
      = statBucket [] 7 (get_month_key ⟨2024, 4, 15⟩) :=
  (c10_bucket_is_wall_clock_month [] 7 ⟨2024, 5, 2⟩ ⟨2024, 4, 15⟩ 7 (by decide)).1

/-- A concrete approved request whose vacation spans a month boundary
(2024-06-28 + 7 days, ending 2024-07-05). -/
def c1ReqLate : Request :=
  { submit_request 42 5000000000 ⟨2024, 6, 28⟩ 7 "отдых" "tg" 24 with
      status := "approved", reviewed_by := Option.some 7,
      reviewed_at := Option.some 5000100, review_comment := Option.some "ok" }

/-- A concrete state holding `c1ReqLate`, whose ledger has only the June-2024
bucket (count 1, total 7) — the July bucket does not exist yet. -/
def c1StLate : SysState :=
  { vacation_requests := [(c1ReqLate.request_id, c1ReqLate)],
    vacation_data := [(c1ReqLate.request_id, c1ReqLate)],
    vacation_stats := [("42", [("2024-06", ⟨1, 7, Option.none⟩)])] }

/-- Counterexample to claim C1, at three concrete inputs.  (1) An early
return with zero days elapsed (on the start day itself) debits nothing — the
June bucket keeps `total_days = 7` — instead of debiting the full
`duration_days = 7`.  (2) An early return 9 days after the start of a 7-day
vacation (the request still sits in the active set until the next lifecycle
pass) applies the negative "debit" `7 - 9 = -2`: the bucket *rises* from 7 to
9, so the debited amount is negative.  (3) An early return in July of a
vacation approved in June hits the empty July bucket, the debit of
`7 - 3 = 4` is skipped, and the current-period bucket stays at 0 instead of
being debited. -/
theorem c1_conservation_fails :
    ((statBucket (early_return_vacation exSt "42_1000200" exReq 9 ⟨2024, 6, 1⟩ 1000500).vacation_stats
        42 (get_month_key ⟨2024, 6, 1⟩)).total_days
      ≠ (statBucket exSt.vacation_stats 42 (get_month_key ⟨2024, 6, 1⟩)).total_days
          - (exReq.duration_days - (daysFromCivil ⟨2024, 6, 1⟩ - daysFromCivil exReq.start_date)))
    ∧ (statBucket (early_return_vacation exSt "42_1000200" exReq 9 ⟨2024, 6, 10⟩ 1000700).vacation_stats
        42 (get_month_key ⟨2024, 6, 10⟩)).total_days
      = (statBucket exSt.vacation_stats 42 (get_month_key ⟨2024, 6, 10⟩)).total_days + 2
    ∧ ((statBucket (early_return_vacation c1StLate "42_5000000" c1ReqLate 9 ⟨2024, 7, 1⟩ 5000200).vacation_stats
        42 (get_month_key ⟨2024, 7, 1⟩)).total_days
      ≠ (statBucket c1StLate.vacation_stats 42 (get_month_key ⟨2024, 7, 1⟩)).total_days
          - (c1ReqLate.duration_days - (daysFromCivil ⟨2024, 7, 1⟩ - daysFromCivil c1ReqLate.start_date))) := by
  refine ⟨by decide, by decide, by decide⟩

/-- Claim C1 (amended): EarlyReturn touches the Usage Ledger only when
`days_elapsed`, the whole days from `start_date` to the wall-clock day of the
return, is at least 1; with zero or negative days elapsed it makes no
adjustment at all.  When `days_elapsed ≥ 1`, the requested adjustment to the
wall-clock month's bucket is `duration_days - days_elapsed`: it is subtracted
from `total_days` whenever `total_days` is at least that amount — including a
negative amount (a return after `end_date`) which *increases* `total_days` —
and is skipped entirely otherwise (e.g. against a fresh empty bucket after a
month boundary). -/
theorem c1_early_return_debit (st : SysState) (rid : String) (data : Request)
    (author : Int) (now : MyDate) (ts : Int) :
    ((daysFromCivil now - daysFromCivil data.start_date ≤ 0) →
        (early_return_vacation st rid data author now ts).vacation_stats = st.vacation_stats)
    ∧ (0 < daysFromCivil now - daysFromCivil data.start_date →
        (statBucket (early_return_vacation st rid data author now ts).vacation_stats
            data.user_id (get_month_key now)).total_days
          = (if data.duration_days - (daysFromCivil now - daysFromCivil data.start_date)
                ≤ (statBucket st.vacation_stats data.user_id (get_month_key now)).total_days
             then (statBucket st.vacation_stats data.user_id (get_month_key now)).total_days
                    - (data.duration_days - (daysFromCivil now - daysFromCivil data.start_date))
             else (statBucket st.vacation_stats data.user_id (get_month_key now)).total_days)) := by
  constructor
  · intro h
    have hneg : ¬ (0 < daysFromCivil now - daysFromCivil data.start_date) := by omega
    unfold early_return_vacation
    simp only [if_neg hneg]
  · intro hpos
    unfold early_return_vacation
    simp only [if_pos hpos]
    rw [statBucket_update]
    unfold bucket_apply
    have hno : ¬ (("cancelled" : String) = "taken") := by decide
    rw [if_neg hno, if_pos rfl]

/-- Witness for C1 (amended): returning after 2 of 7 days, the June-2024
bucket's `total_days` follows the stated case split (here the covered case:
debited by exactly 5). -/
theorem c1_early_return_debit_witness :
    (statBucket (early_return_vacation exSt "42_1000200" exReq 9 ⟨2024, 6, 3⟩ 1000600).vacation_stats
        exReq.user_id (get_month_key ⟨2024, 6, 3⟩)).total_days
      = (if exReq.duration_days - (daysFromCivil ⟨2024, 6, 3⟩ - daysFromCivil exReq.start_date)
            ≤ (statBucket exSt.vacation_stats exReq.user_id (get_month_key ⟨2024, 6, 3⟩)).total_days
         then (statBucket exSt.vacation_stats exReq.user_id (get_month_key ⟨2024, 6, 3⟩)).total_days
                - (exReq.duration_days - (daysFromCivil ⟨2024, 6, 3⟩ - daysFromCivil exReq.start_date))
         else (statBucket exSt.vacation_stats exReq.user_id (get_month_key ⟨2024, 6, 3⟩)).total_days) :=
  (c1_early_return_debit exSt "42_1000200" exReq 9 ⟨2024, 6, 3⟩ 1000600).2 (by decide)

/-- Counterexample to claim C2: with the external role revoke failing
(`revoke_ok = false`), the Expire transition of the overdue request is still
committed — the request leaves the active set `vacation_data` and its status
becomes `"completed"` — instead of keeping its pre-transition status for a
retry. -/
theorem c2_revoke_failure_still_commits :
    dget (check_vacations_expire exSt "42_1000200" ⟨2024, 6, 10⟩ false).vacation_data
        "42_1000200" = Option.none
    ∧ (dget (check_vacations_expire exSt "42_1000200" ⟨2024, 6, 10⟩ false).vacation_requests
        "42_1000200").map Request.status = Option.some "completed" := by
  decide

/-- Claim C2 (amended): when the scheduler expires an Active request, a
failure of the external role revoke is logged and swallowed: the state after
the pass is identical to the success case — the status transition is
committed to `"completed"` and the request leaves the active set — so nothing
is left for a later pass to retry. -/
theorem c2_expire_commits_despite_revoke_failure (st : SysState) (rid : String)
    (data : Request) (now : MyDate) (h : dget st.vacation_data rid = Option.some data)
    (hs : data.status = "approved") (hne : data.start_date ≠ now)
    (he : dateLe data.end_date now) :
    check_vacations_expire st rid now false = check_vacations_expire st rid now true
    ∧ dget (check_vacations_expire st rid now false).vacation_data rid = Option.none
    ∧ dget (check_vacations_expire st rid now false).vacation_requests rid
        = Option.some { data with status := "completed" } := by
  have hdec : check_vacations_decision data.status data.start_date data.end_date now
      = SchedDecision.expire := by
    unfold check_vacations_decision
    simp [hs, hne, he]
  unfold check_vacations_expire
  rw [h]
  simp only [hdec, if_pos rfl]
  exact ⟨trivial, by simp [dget_ddel_self], by simp [dget_dset_self]⟩

/-- Witness for C2 (amended): the concrete overdue request is committed to
`"completed"` although the revoke failed. -/
theorem c2_expire_commits_witness :
    dget (check_vacations_expire exSt "42_1000200" ⟨2024, 6, 20⟩ false).vacation_requests
        "42_1000200" = Option.some { exReq with status := "completed" } :=
  (c2_expire_commits_despite_revoke_failure exSt "42_1000200" exReq ⟨2024, 6, 20⟩
    (by decide) (by decide) (by decide) (by decide)).2.2

/-- A ledger whose June-2024 bucket for actor 42 holds fewer days (3) than
the debit about to be requested (5). -/
def c8Stats : VacStats := [("42", [("2024-06", ⟨1, 3, Option.none⟩)])]

/-- Counterexample to claim C8: a debit of 5 days against a bucket holding
`total_days = 3` leaves `total_days` at 3 — the subtraction is skipped — and
does not clamp the counter to `max(0, 3 - 5) = 0` as the claim requires. -/
theorem c8_oversized_debit_skipped :
    (statBucket (update_vacation_stats c8Stats 42 ⟨2024, 6, 15⟩ 5 "cancelled")
        42 "2024-06").total_days
      ≠ max 0 ((statBucket c8Stats 42 "2024-06").total_days - 5) := by
  decide

/-- Claim C8 (amended): a Usage Ledger debit of `d` days against a bucket
holding `count = c ≥ 0` and `total_days = t` yields `count = max(0, c - 1)`,
and `total_days = t - d` when `t ≥ d` but leaves `total_days = t` unchanged
when the debit exceeds the stored value (skipped, not clamped to zero). -/
theorem c8_debit_clamps (stats : VacStats) (uid : Int) (now : MyDate) (d : Int)
    (hc : 0 ≤ (statBucket stats uid (get_month_key now)).count) :
    (statBucket (update_vacation_stats stats uid now d "cancelled") uid
        (get_month_key now)).count
      = max 0 ((statBucket stats uid (get_month_key now)).count - 1)
    ∧ (statBucket (update_vacation_stats stats uid now d "cancelled") uid
        (get_month_key now)).total_days
      = (if d ≤ (statBucket stats uid (get_month_key now)).total_days
         then (statBucket stats uid (get_month_key now)).total_days - d
         else (statBucket stats uid (get_month_key now)).total_days) := by
  rw [statBucket_update]
  unfold bucket_apply
  have hno : ¬ (("cancelled" : String) = "taken") := by decide
  rw [if_neg hno, if_pos rfl]
  constructor
  · by_cases hp : 0 < (statBucket stats uid (get_month_key now)).count
    · simp only [if_pos hp]
      omega
    · simp only [if_neg hp]
      omega
  · rfl

/-- Witness for C8 (amended): debiting 2 days from the bucket holding 3 days
and count 1 behaves as stated. -/
theorem c8_debit_clamps_witness :
    (statBucket (update_vacation_stats c8Stats 42 ⟨2024, 6, 15⟩ 2 "cancelled") 42
        (get_month_key ⟨2024, 6, 15⟩)).count
      = max 0 ((statBucket c8Stats 42 (get_month_key ⟨2024, 6, 15⟩)).count - 1) :=
  (c8_debit_clamps c8Stats 42 ⟨2024, 6, 15⟩ 2 (by decide)).1

/-- First of two submissions by actor 42 inside the same wall-clock second
(1000.2 s). -/
def c6Req1 : Request := submit_request 42 1000200 ⟨2024, 6, 10⟩ 7 "first" "tg" 24

/-- Second submission by actor 42 inside the same wall-clock second
(1000.9 s). -/
def c6Req2 : Request := submit_request 42 1000900 ⟨2024, 6, 20⟩ 7 "second" "tg" 24

/-- Claim C6: two submissions by the same actor within the same wall-clock
second receive the same request id `"42_1000"` — the id is
`f"{user_id}_{int(timestamp)}"`, truncated to whole seconds — and the second
dict assignment replaces the first stored request, which is lost. -/
theorem c6_same_second_submissions_collide :
    c6Req1.request_id = c6Req2.request_id
    ∧ submit_request_store (submit_request_store [] c6Req1) c6Req2 = [("42_1000", c6Req2)]
    ∧ dget (submit_request_store (submit_request_store [] c6Req1) c6Req2) c6Req1.request_id
        ≠ Option.some c6Req1 := by
  refine ⟨by decide, by decide, by decide⟩

/-- The concrete request of C7's counterexample: submitted, left untouched
past its auto-close deadline, then auto-closed by the scheduler. -/
def c7AutoClosed : Request :=
  applyOp (submit_request 42 1000200000 ⟨2024, 6, 10⟩ 7 "r" "c" 24)
    (VacOp.autoClose 1090000 24)

/-- Counterexample to claim C7: an auto-closed request has the non-Pending
status `"cancelled"` yet carries no review record, so "review absent iff
status Pending" fails in the AutoClosed case. -/
theorem c7_autoclosed_has_no_review :
    c7AutoClosed.status = "cancelled"
    ∧ c7AutoClosed.status ≠ "pending"
    ∧ c7AutoClosed.reviewed_by = Option.none := by
  decide

/-- Claim C7 (amended): in every state reachable from a submission by the
lifecycle operations, the review record is absent if and only if the status is
`"pending"` or the auto-close status `"cancelled"` — i.e. exactly the
statuses reached without a reviewer decision; every other status (approved,
denied, completed, early_return) carries a review record. -/
theorem c7_review_iff_decided (ops : List VacOp) (user_id now_ts_millis : Int)
    (start : MyDate) (dur : Int) (reason contact : String) (hours : Int) :
    (ops.foldl applyOp
        (submit_request user_id now_ts_millis start dur reason contact hours)).reviewed_by
        = Option.none
    ↔ ((ops.foldl applyOp
          (submit_request user_id now_ts_millis start dur reason contact hours)).status
          = "pending"
       ∨ (ops.foldl applyOp
            (submit_request user_id now_ts_millis start dur reason contact hours)).status
          = "cancelled") :=
  review_inv_foldl ops _
    (review_inv_submit user_id now_ts_millis start dur reason contact hours)

/-- A concrete approved request whose vacation has not started yet
(start 2024-08-10, reviewed on 2024-08-01). -/
def c9Req : Request :=
  { submit_request 42 4000000000 ⟨2024, 8, 10⟩ 7 "r" "c" 24 with
      status := "approved", reviewed_by := Option.some 7,
      reviewed_at := Option.some 4000100, review_comment := Option.some "" }

/-- A concrete state holding only `c9Req`. -/
def c9St : SysState :=
  { vacation_requests := [(c9Req.request_id, c9Req)],
    vacation_data := [(c9Req.request_id, c9Req)],
    vacation_stats := [] }

/-- Claim C9: both early-return entry points accept any request of the actor
with status `"approved"`, including one whose `start_date` is still in the
future: the menu's selection list contains it, the admin force-terminate
lookup finds it, and applying the early return transitions it to
`"early_return"` rather than rejecting it. -/
theorem c9_early_return_accepts_not_started (st : SysState) (rid : String) (req : Request)
    (uid author : Int) (now : MyDate) (ts : Int)
    (hmem : (rid, req) ∈ st.vacation_data) (hu : req.user_id = uid)
    (hs : req.status = "approved") (hfuture : dateLt now req.start_date) :
    (rid, req) ∈ user_vacations st.vacation_data uid
    ∧ (st.vacation_data.find? fun p => p.2.user_id == uid && p.2.status == "approved").isSome
        = true
    ∧ dget (early_return_vacation st rid req author now ts).vacation_requests rid
        = Option.some { req with status := "early_return",
                                 early_return_at := Option.some ts,
                                 early_return_by := Option.some author } := by
  refine ⟨?_, ?_, ?_⟩
  · simp [user_vacations, List.mem_filter, hmem, hu, hs]
  · rw [List.find?_isSome]
    exact ⟨(rid, req), hmem, by simp [hu, hs]⟩
  · unfold early_return_vacation
    simp [dget_dset_self]

/-- Witness for C9: on 2024-08-01 the not-yet-started concrete request is
offered for early return and transitions to `"early_return"`. -/
theorem c9_early_return_accepts_not_started_witness :
    ("42_4000000", c9Req) ∈ user_vacations c9St.vacation_data 42
    ∧ (c9St.vacation_data.find? fun p => p.2.user_id == 42 && p.2.status == "approved").isSome
        = true
    ∧ dget (early_return_vacation c9St "42_4000000" c9Req 9 ⟨2024, 8, 1⟩ 4000200).vacation_requests
          "42_4000000"
        = Option.some { c9Req with status := "early_return",
                                   early_return_at := Option.some 4000200,
                                   early_return_by := Option.some 9 } :=
  c9_early_return_accepts_not_started c9St "42_4000000" c9Req 42 9 ⟨2024, 8, 1⟩ 4000200
    (by decide) rfl rfl (by decide)

end Vacation
